import Mathlib

/- Formal model of the signage display engine in `src/main_final.py`.

   Pure Python functions (`format_url`, `get_grid_for_slots`) are embedded
   as Lean functions on character lists and integers.  The Qt window
   classes are embedded as structures holding exactly the state the Python
   objects hold; their timer callbacks become state-transition functions
   that also return the renderer calls they emit, and the constructors
   become functions building the initial state (including the immediate
   first tick of `SingleScreenWindow`).  `MainController.apply_mode` and
   `SettingsWindow.save_settings` are embedded as functions on an explicit
   controller state, with the screen list passed as an argument (the
   topology `QApplication.screens()` reads). -/

/-- A content item: title and URL, as in the config entries
`{"title": ..., "url": ...}` of main_final.py. -/
structure Page where
  title : String
  url : String
deriving DecidableEq

/-- Default used for out-of-range list reads in the model (a Python
out-of-range read would raise; every read we prove about is in range). -/
def defaultPage : Page := ⟨"", ""⟩

/-- One physical screen's geometry, as returned by QApplication.screens. -/
structure Monitor where
  x : Int
  y : Int
  w : Int
  h : Int
deriving DecidableEq

def defaultMonitor : Monitor := ⟨0, 0, 0, 0⟩

/-- One grid cell of a multi-screen window: either a container holding the
view of an assigned page, or the black NoSignalWidget. -/
inductive Cell where
  | assigned : Page → Cell
  | noSignal : Cell
deriving DecidableEq

/-- Python str.strip: drop whitespace from both ends. -/
def py_strip (l : List Char) : List Char :=
  ((l.dropWhile Char.isWhitespace).reverse.dropWhile Char.isWhitespace).reverse

/-- Python str.startswith, on character lists: first argument is the
candidate head, second the string. -/
def startsWithL : List Char → List Char → Bool
  | [], _ => true
  | _ :: _, [] => false
  | c :: cs, d :: ds => c == d && startsWithL cs ds

def httpL : List Char := "http://".toList

def httpsL : List Char := "https://".toList

/-- format_url from main_final.py: strip the string, then prepend
"https://" unless it already starts with "http://" or "https://". -/
def format_url (u : List Char) : List Char :=
  let s := py_strip u
  if startsWithL httpL s || startsWithL httpsL s then s else httpsL ++ s

/-- get_grid_for_slots from main_final.py: (rows, cols) for a slot count. -/
def get_grid_for_slots (slots : Int) : Nat × Nat :=
  if slots ≤ 1 then (1, 1)
  else if slots = 2 then (1, 2)
  else if slots ≤ 4 then (2, 2)
  else if slots ≤ 6 then (2, 3)
  else if slots ≤ 9 then (3, 3)
  else if slots ≤ 12 then (3, 4)
  else if slots ≤ 16 then (4, 4)
  else (4, 4)

/-- SingleScreenWindow state: its page list, refresh interval and
current_index, as stored on the Python object. -/
structure SingleWindow where
  pages : List Page
  refresh_interval : Int
  current_index : Nat
deriving DecidableEq

/-- SingleScreenWindow.show_next_page: if the page list is empty, return
with no render; otherwise render pages[current_index] and advance
current_index by one modulo the list length.  Returns the updated window
and the page rendered (none when no render happened). -/
def show_next_page (w : SingleWindow) : SingleWindow × Option Page :=
  if w.pages.isEmpty then (w, none)
  else
    let page := w.pages.getD w.current_index defaultPage
    ({ w with current_index := (w.current_index + 1) % w.pages.length }, some page)

/-- SingleScreenWindow constructor: current_index starts at 0, the timer
is started, and show_next_page is called once immediately. -/
def mkSingleWindow (pages : List Page) (iv : Int) : SingleWindow × Option Page :=
  show_next_page ⟨pages, iv, 0⟩

/-- The window state after k calls of show_next_page. -/
def singleTicks (w : SingleWindow) : Nat → SingleWindow
  | 0 => w
  | k + 1 => (show_next_page (singleTicks w k)).1

/-- The page rendered on tick k of a freshly constructed window, where
tick 0 is the immediate tick performed by the constructor. -/
def renderedOnTick (pages : List Page) (iv : Int) (k : Nat) : Option Page :=
  (show_next_page (singleTicks ⟨pages, iv, 0⟩ k)).2

/-- MultiScreenWindow state: the assigned page list, interval, geometry,
slot count, grid shape, the grid of cells, and the list of created
views (one per assigned cell, bound to that cell's page). -/
structure MultiWindow where
  pages : List Page
  refresh_interval : Int
  geometry : Monitor
  slots_per_screen : Int
  rows : Nat
  cols : Nat
  cells : List Cell
  views : List Page
deriving DecidableEq

/-- MultiScreenWindow constructor: grid shape from get_grid_for_slots;
for each cell index below the number of assigned pages a view bound to
that page is created and appended to views; every later cell gets a
NoSignalWidget. -/
def mkMultiWindow (pages : List Page) (iv : Int) (geo : Monitor) (slots : Int) : MultiWindow :=
  let rc := get_grid_for_slots slots
  let total := rc.1 * rc.2
  { pages := pages
    refresh_interval := iv
    geometry := geo
    slots_per_screen := slots
    rows := rc.1
    cols := rc.2
    cells := (List.range total).map fun i =>
      if i < pages.length then Cell.assigned (pages.getD i defaultPage) else Cell.noSignal
    views := (List.range total).filterMap fun i =>
      if i < pages.length then some (pages.getD i defaultPage) else none }

/-- MultiScreenWindow.refresh_all_views: reload every created view; the
window state is untouched.  Returns the window together with the pages
whose views receive a reload call, in creation order. -/
def refresh_all_views (w : MultiWindow) : MultiWindow × List Page :=
  (w, w.views)

/-- The pages of the assigned cells of a grid, in row-major order. -/
def assignedPages (cells : List Cell) : List Page :=
  cells.filterMap fun c => match c with
    | Cell.assigned p => some p
    | Cell.noSignal => none

/-- A window owned by the controller. -/
inductive Window where
  | single : SingleWindow → Window
  | multi : MultiWindow → Window
deriving DecidableEq

def windowPages : Window → List Page
  | Window.single w => w.pages
  | Window.multi w => w.pages

def windowViews : Window → List Page
  | Window.single _ => []
  | Window.multi w => w.views

def windowCells : Window → List Cell
  | Window.single _ => []
  | Window.multi w => w.cells

def defaultWindow : Window := Window.single ⟨[], 0, 0⟩

/-- The controller's mode: Python compares the stored string to
"single" and treats everything else as multi. -/
inductive Mode where
  | single : Mode
  | multi : Mode
deriving DecidableEq

/-- MainController state. -/
structure Controller where
  mode : Mode
  pages : List Page
  refresh_interval : Int
  slots_per_screen : Int
  windows : List Window
deriving DecidableEq

/-- The multi branch of apply_mode: iterate over the screens keeping a
cursor page_index into pages; each screen takes up to slots_per_screen
pages from the cursor (the inner loop stops at the end of pages); a
window is created when pages were taken or slots_per_screen > 0. -/
def buildMultiFrom (pages : List Page) (iv : Int) (slots : Int) : Nat → List Monitor → List Window
  | _, [] => []
  | cursor, screen :: rest =>
    let screen_pages := (pages.drop cursor).take slots.toNat
    let tail := buildMultiFrom pages iv slots (cursor + screen_pages.length) rest
    if screen_pages ≠ [] ∨ 0 < slots then
      Window.multi (mkMultiWindow screen_pages iv screen slots) :: tail
    else tail

/-- The windows apply_mode builds from the controller fields. -/
def new_windows (mode : Mode) (pages : List Page) (iv : Int) (slots : Int)
    (screens : List Monitor) : List Window :=
  match mode with
  | Mode.single => [Window.single (mkSingleWindow pages iv).1]
  | Mode.multi => buildMultiFrom pages iv slots 0 screens

/-- MainController.apply_mode: close and discard all existing windows,
then rebuild the window list from the current mode, pages, interval and
slots_per_screen, and show the new windows. -/
def apply_mode (c : Controller) (screens : List Monitor) : Controller :=
  { c with windows := new_windows c.mode c.pages c.refresh_interval c.slots_per_screen screens }

/-- Outcome of save_settings: either saved and applied, or one of the two
warning message boxes after which the method returns early. -/
inductive SaveOutcome where
  | saved : SaveOutcome
  | warnedRefresh : SaveOutcome
  | warnedSlots : SaveOutcome
deriving DecidableEq

/-- SettingsWindow.save_settings.  The int() parses of the two text
fields are abstracted to their results, `none` modelling a string int()
rejects.  The statement order mirrors the source: the collected pages
are stored in the controller first; then the refresh interval is parsed
(warn and return on failure) and stored; then slots is parsed and
checked against < 1 (warn and return on failure) and stored; only then
is apply_mode invoked and the config written. -/
def save_settings (c : Controller) (screens : List Monitor) (newPages : List Page)
    (refreshParse : Option Int) (slotsParse : Option Int) : Controller × SaveOutcome :=
  let c1 := { c with pages := newPages }
  match refreshParse with
  | none => (c1, SaveOutcome.warnedRefresh)
  | some r =>
    let c2 := { c1 with refresh_interval := r }
    match slotsParse with
    | none => (c2, SaveOutcome.warnedSlots)
    | some s =>
      if s < 1 then (c2, SaveOutcome.warnedSlots)
      else
        let c3 := { c2 with slots_per_screen := s }
        (apply_mode c3 screens, SaveOutcome.saved)

/-- Remaining-pages reformulation of the allocation loop, used to reason
about buildMultiFrom: the cursor is replaced by the not-yet-consumed
suffix of pages. -/
def buildRem (iv : Int) (slots : Int) : List Page → List Monitor → List Window
  | _, [] => []
  | rem, screen :: rest =>
    let screen_pages := rem.take slots.toNat
    let tail := buildRem iv slots (rem.drop slots.toNat) rest
    if screen_pages ≠ [] ∨ 0 < slots then
      Window.multi (mkMultiWindow screen_pages iv screen slots) :: tail
    else tail

/-- Five pages A..E, the page pool of the spec scenario. -/
def pagesABCDE : List Page :=
  [⟨"A", "a"⟩, ⟨"B", "b"⟩, ⟨"C", "c"⟩, ⟨"D", "d"⟩, ⟨"E", "e"⟩]

/-- Three monitors in provider order, for the spec scenario. -/
def monitors3 : List Monitor := [⟨0, 0, 1, 1⟩, ⟨1, 0, 1, 1⟩, ⟨2, 0, 1, 1⟩]

/-- Two monitors in provider order, for the spec scenario. -/
def monitors2 : List Monitor := [⟨0, 0, 1, 1⟩, ⟨1, 0, 1, 1⟩]

/- ### List helper lemmas -/

theorem dropWhile_head_not (p : Char → Bool) :
    ∀ (l : List Char) (c : Char), (l.dropWhile p).head? = some c → p c = false := by
  intro l
  induction l with
  | nil => intro c h; simp [List.dropWhile] at h
  | cons d t ih =>
    intro c h
    by_cases hd : p d
    · rw [List.dropWhile_cons, if_pos hd] at h
      exact ih c h
    · rw [List.dropWhile_cons, if_neg hd] at h
      simp at h
      rw [← h]
      exact Bool.eq_false_iff.mpr hd

theorem dropWhile_eq_self_of_head (p : Char → Bool) (l : List Char)
    (h : ∀ c, l.head? = some c → p c = false) : l.dropWhile p = l := by
  cases l with
  | nil => rfl
  | cons d t =>
    rw [List.dropWhile_cons, if_neg]
    rw [h d rfl]
    simp

theorem exists_dropWhile_append (p : Char → Bool) :
    ∀ l : List Char, ∃ t, t ++ l.dropWhile p = l := by
  intro l
  induction l with
  | nil => exact ⟨[], rfl⟩
  | cons d t ih =>
    by_cases hd : p d
    · obtain ⟨t1, ht1⟩ := ih
      refine ⟨d :: t1, ?_⟩
      rw [List.dropWhile_cons, if_pos hd]
      simp [ht1]
    · exact ⟨[], by rw [List.dropWhile_cons, if_neg hd]; rfl⟩

theorem head?_append_of_ne_nil {x y : List Char} (h : x ≠ []) :
    (x ++ y).head? = x.head? := by
  cases x with
  | nil => exact absurd rfl h
  | cons c m => rfl

theorem dropWhile_append_eq_self (p : Char → Bool) {x : List Char} (y : List Char)
    (hx : x ≠ []) (h : ∀ c, x.head? = some c → p c = false) :
    (x ++ y).dropWhile p = x ++ y := by
  apply dropWhile_eq_self_of_head
  intro c hc
  rw [head?_append_of_ne_nil hx] at hc
  exact h c hc

/- ### format_url lemmas (C8) -/

/-- Characters at the head of a stripped string are not whitespace. -/
def noWSHead (l : List Char) : Prop :=
  ∀ c, l.head? = some c → Char.isWhitespace c = false

theorem py_strip_reverse_noWSHead (l : List Char) : noWSHead (py_strip l).reverse := by
  intro c hc
  unfold py_strip at hc
  rw [List.reverse_reverse] at hc
  exact dropWhile_head_not _ _ _ hc

theorem py_strip_noWSHead (l : List Char) : noWSHead (py_strip l) := by
  intro c hc
  set A := l.dropWhile Char.isWhitespace with hA
  obtain ⟨t, ht⟩ := exists_dropWhile_append Char.isWhitespace A.reverse
  have hpre : py_strip l ++ t.reverse = A := by
    unfold py_strip
    rw [← hA]
    have := congrArg List.reverse ht
    rw [List.reverse_append, List.reverse_reverse] at this
    exact this
  have hAhead : A.head? = some c := by
    rw [← hpre]
    have hne : py_strip l ≠ [] := by
      intro hnil
      rw [hnil] at hc
      simp at hc
    rw [head?_append_of_ne_nil hne]
    exact hc
  exact dropWhile_head_not _ _ _ hAhead

theorem py_strip_idem (l : List Char) : py_strip (py_strip l) = py_strip l := by
  have h1 : (py_strip l).dropWhile Char.isWhitespace = py_strip l :=
    dropWhile_eq_self_of_head _ _ (py_strip_noWSHead l)
  have h2 : (py_strip l).reverse.dropWhile Char.isWhitespace = (py_strip l).reverse :=
    dropWhile_eq_self_of_head _ _ (py_strip_reverse_noWSHead l)
  have hdef : py_strip (py_strip l) =
      (((py_strip l).dropWhile Char.isWhitespace).reverse.dropWhile Char.isWhitespace).reverse :=
    rfl
  rw [hdef, h1, h2, List.reverse_reverse]

theorem py_strip_https_append (s : List Char) (hs : noWSHead s.reverse) :
    py_strip (httpsL ++ s) = httpsL ++ s := by
  have hlead : (httpsL ++ s).dropWhile Char.isWhitespace = httpsL ++ s := by
    apply dropWhile_append_eq_self
    · intro h; simp [httpsL] at h
    · intro c hc
      simp [httpsL] at hc
      subst hc
      decide
  have hrev : (httpsL ++ s).reverse.dropWhile Char.isWhitespace = (httpsL ++ s).reverse := by
    rw [List.reverse_append]
    cases hsr : s.reverse with
    | nil => decide
    | cons c m =>
      apply dropWhile_append_eq_self
      · simp
      · intro d hd
        apply hs
        rw [hsr]
        exact hd
  unfold py_strip
  rw [hlead, hrev, List.reverse_reverse]

theorem startsWithL_append (pre s : List Char) : startsWithL pre (pre ++ s) = true := by
  induction pre with
  | nil => rfl
  | cons c cs ih => simp [startsWithL, ih]

/- ### Grid lemmas (C2) -/

theorem grid_gt16 (s : Int) (h : 16 < s) : get_grid_for_slots s = (4, 4) := by
  unfold get_grid_for_slots
  split_ifs <;> first | rfl | omega

/- ### Single-window lemmas (C3, C10) -/

theorem show_next_page_pages (w : SingleWindow) : (show_next_page w).1.pages = w.pages := by
  simp only [show_next_page]
  split <;> rfl

theorem show_next_page_ne_empty (w : SingleWindow) (h : w.pages ≠ []) :
    (show_next_page w).1.current_index = (w.current_index + 1) % w.pages.length ∧
    (show_next_page w).2 = some (w.pages.getD w.current_index defaultPage) := by
  have hb : w.pages.isEmpty = false := by
    rw [Bool.eq_false_iff]
    intro hab
    exact h (List.isEmpty_iff.mp hab)
  simp [show_next_page, hb]

theorem show_next_page_empty (w : SingleWindow) (h : w.pages = []) :
    show_next_page w = (w, none) := by
  simp [show_next_page, h]

theorem singleTicks_pages (w : SingleWindow) : ∀ k, (singleTicks w k).pages = w.pages := by
  intro k
  induction k with
  | zero => rfl
  | succ k ih =>
    simp only [singleTicks]
    rw [show_next_page_pages, ih]

theorem singleTicks_index (pages : List Page) (iv : Int) (h : pages ≠ []) :
    ∀ k, (singleTicks ⟨pages, iv, 0⟩ k).current_index = k % pages.length := by
  intro k
  induction k with
  | zero => simp [singleTicks]
  | succ k ih =>
    have hp : (singleTicks ⟨pages, iv, 0⟩ k).pages = pages := singleTicks_pages _ _
    have hne : (singleTicks ⟨pages, iv, 0⟩ k).pages ≠ [] := by rw [hp]; exact h
    simp only [singleTicks]
    rw [(show_next_page_ne_empty _ hne).1, hp, ih, Nat.mod_add_mod]

/- ### Multi-window lemmas (C6, C7, C9) -/

theorem range_filterMap_take (pages : List Page) :
    ∀ t, (List.range t).filterMap (fun i =>
        if i < pages.length then some (pages.getD i defaultPage) else none) = pages.take t := by
  intro t
  induction t with
  | zero => simp
  | succ t ih =>
    rw [List.range_succ, List.filterMap_append, ih, List.take_succ]
    by_cases ht : t < pages.length
    · rw [List.getElem?_eq_getElem ht]
      simp [ht, List.getD_eq_getElem pages defaultPage ht]
    · rw [List.getElem?_eq_none (Nat.le_of_not_lt ht)]
      simp [ht]

theorem mkMultiWindow_views (pages : List Page) (iv : Int) (geo : Monitor) (slots : Int) :
    (mkMultiWindow pages iv geo slots).views =
      pages.take ((get_grid_for_slots slots).1 * (get_grid_for_slots slots).2) :=
  range_filterMap_take pages _

theorem mkMultiWindow_cells_assigned (pages : List Page) (iv : Int) (geo : Monitor) (slots : Int) :
    assignedPages (mkMultiWindow pages iv geo slots).cells =
      (mkMultiWindow pages iv geo slots).views := by
  show assignedPages ((List.range _).map _) = (List.range _).filterMap _
  simp only [assignedPages, List.filterMap_map]
  congr 1
  funext i
  by_cases hi : i < pages.length <;> simp [Function.comp, hi]

theorem mkMultiWindow_cells_length (pages : List Page) (iv : Int) (geo : Monitor) (slots : Int) :
    (mkMultiWindow pages iv geo slots).cells.length =
      (get_grid_for_slots slots).1 * (get_grid_for_slots slots).2 := by
  simp [mkMultiWindow]

theorem mkMultiWindow_nil (iv : Int) (geo : Monitor) (slots : Int) :
    (mkMultiWindow [] iv geo slots).cells =
      List.replicate ((get_grid_for_slots slots).1 * (get_grid_for_slots slots).2) Cell.noSignal ∧
    (mkMultiWindow [] iv geo slots).views = [] := by
  constructor
  · show (List.range _).map _ = _
    simp
  · rw [mkMultiWindow_views]
    simp

/- ### Allocation-loop lemmas (C1, C6, C9) -/

theorem drop_take_length (l : List Page) (n : Nat) :
    l.drop (l.take n).length = l.drop n := by
  rw [List.length_take]
  rcases Nat.le_total n l.length with h | h
  · rw [Nat.min_eq_left h]
  · rw [Nat.min_eq_right h, List.drop_length, List.drop_eq_nil_of_le h]

theorem buildMultiFrom_eq_buildRem (pages : List Page) (iv slots : Int) :
    ∀ (screens : List Monitor) (cursor : Nat),
      buildMultiFrom pages iv slots cursor screens = buildRem iv slots (pages.drop cursor) screens := by
  intro screens
  induction screens with
  | nil => intro cursor; rfl
  | cons s rest ih =>
    intro cursor
    have hd : pages.drop (cursor + ((pages.drop cursor).take slots.toNat).length) =
        (pages.drop cursor).drop slots.toNat := by
      calc pages.drop (cursor + ((pages.drop cursor).take slots.toNat).length)
          = ((pages.drop cursor).drop ((pages.drop cursor).take slots.toNat).length) :=
            (List.drop_drop _ _ _).symm
        _ = (pages.drop cursor).drop slots.toNat := drop_take_length _ _
    simp only [buildMultiFrom, buildRem]
    rw [ih, hd]

theorem buildRem_length (iv slots : Int) (h : 0 < slots) :
    ∀ (screens : List Monitor) (rem : List Page),
      (buildRem iv slots rem screens).length = screens.length := by
  intro screens
  induction screens with
  | nil => intro rem; rfl
  | cons s rest ih =>
    intro rem
    simp only [buildRem]
    rw [if_pos (Or.inr h)]
    simp [ih]

theorem buildRem_getD (iv slots : Int) (h : 0 < slots) :
    ∀ (screens : List Monitor) (rem : List Page) (i : Nat), i < screens.length →
      (buildRem iv slots rem screens).getD i defaultWindow =
        Window.multi (mkMultiWindow ((rem.drop (i * slots.toNat)).take slots.toNat) iv
          (screens.getD i defaultMonitor) slots) := by
  intro screens
  induction screens with
  | nil => intro rem i hi; simp at hi
  | cons s rest ih =>
    intro rem i hi
    simp only [buildRem]
    rw [if_pos (Or.inr h)]
    cases i with
    | zero => simp
    | succ i =>
      rw [List.getD_cons_succ, List.getD_cons_succ]
      rw [ih (rem.drop slots.toNat) i (by simpa using hi)]
      rw [List.drop_drop]
      have harith : slots.toNat + i * slots.toNat = (i + 1) * slots.toNat := by ring
      rw [harith]

theorem buildRem_assigned (iv slots : Int) (h : 0 < slots) :
    ∀ (screens : List Monitor) (rem : List Page),
      ((buildRem iv slots rem screens).map windowPages).flatten =
        rem.take (screens.length * slots.toNat) := by
  intro screens
  induction screens with
  | nil =>
    intro rem
    rw [show buildRem iv slots rem [] = [] from rfl]
    simp
  | cons s rest ih =>
    intro rem
    simp only [buildRem]
    rw [if_pos (Or.inr h)]
    simp only [List.map_cons, List.flatten_cons, windowPages]
    rw [ih]
    have hn : (rest.length + 1) * slots.toNat = slots.toNat + rest.length * slots.toNat := by ring
    simp only [List.length_cons, hn, List.take_add]
    rfl

/- ### Claim theorems -/

/-- C2: get_grid_for_slots is a pure total function matching the layout
table — (1,1) for slots ≤ 1, (1,2) for 2, (2,2) for 3..4, (2,3) for
5..6, (3,3) for 7..9, (3,4) for 10..12, (4,4) for 13..16 and (4,4) as a
capacity clamp above 16 — and rows*cols is always at least min(s,16). -/
theorem grid_layout_table (s : Int) :
    (s ≤ 1 → get_grid_for_slots s = (1, 1)) ∧
    (s = 2 → get_grid_for_slots s = (1, 2)) ∧
    (3 ≤ s → s ≤ 4 → get_grid_for_slots s = (2, 2)) ∧
    (5 ≤ s → s ≤ 6 → get_grid_for_slots s = (2, 3)) ∧
    (7 ≤ s → s ≤ 9 → get_grid_for_slots s = (3, 3)) ∧
    (10 ≤ s → s ≤ 12 → get_grid_for_slots s = (3, 4)) ∧
    (13 ≤ s → s ≤ 16 → get_grid_for_slots s = (4, 4)) ∧
    (16 < s → get_grid_for_slots s = (4, 4)) ∧
    min s 16 ≤ (((get_grid_for_slots s).1 * (get_grid_for_slots s).2 : Nat) : Int) := by
  unfold get_grid_for_slots
  split_ifs <;>
    refine ⟨?_, ?_, ?_, ?_, ?_, ?_, ?_, ?_, ?_⟩ <;> intros <;>
    first
    | rfl
    | omega

/-- Witness for C2 at s = 5: the hypotheses 5 ≤ s ≤ 6 hold and the grid
is 2×3. -/
theorem grid_layout_witness :
    ((5:Int) ≤ 6) ∧ get_grid_for_slots 5 = (2, 3) :=
  ⟨by decide, (grid_layout_table 5).2.2.2.1 (by decide) (by decide)⟩

/-- C8: format_url trims the string, then prepends "https://" exactly
when the trimmed string does not already start with "http://" or
"https://"; it is idempotent, and on the two concrete examples it yields
"https://example.com" and "http://x". -/
theorem url_normalization :
    (∀ u : List Char, format_url (format_url u) = format_url u) ∧
    (∀ u : List Char, format_url u =
      if startsWithL httpL (py_strip u) || startsWithL httpsL (py_strip u)
      then py_strip u else httpsL ++ py_strip u) ∧
    format_url ("example.com".toList) = ("https://example.com".toList) ∧
    format_url ("http://x".toList) = ("http://x".toList) := by
  refine ⟨?_, fun u => rfl, by decide, by decide⟩
  intro u
  by_cases hcond : (startsWithL httpL (py_strip u) || startsWithL httpsL (py_strip u)) = true
  · have h1 : format_url u = py_strip u := by
      simp only [format_url]
      rw [if_pos hcond]
    rw [h1]
    simp only [format_url]
    rw [py_strip_idem, if_pos hcond]
  · have h1 : format_url u = httpsL ++ py_strip u := by
      simp only [format_url]
      rw [if_neg hcond]
    rw [h1]
    simp only [format_url]
    rw [py_strip_https_append _ (py_strip_reverse_noWSHead u)]
    have hc2 : (startsWithL httpL (httpsL ++ py_strip u) ||
        startsWithL httpsL (httpsL ++ py_strip u)) = true := by
      rw [Bool.or_eq_true]
      exact Or.inr (startsWithL_append _ _)
    rw [if_pos hc2]

/-- C3: in single mode, the page rendered on tick k (tick 0 being the
immediate tick at construction) is pages[k mod n] when n > 0; with
n = 0 no render occurs on any tick; and every render advances
current_index to (current_index + 1) mod n. -/
theorem single_mode_rotation (pages : List Page) (iv : Int) (k : Nat) :
    (0 < pages.length →
      renderedOnTick pages iv k = some (pages.getD (k % pages.length) defaultPage)) ∧
    (pages.length = 0 → renderedOnTick pages iv k = none) ∧
    (∀ w : SingleWindow, w.pages ≠ [] →
      (show_next_page w).1.current_index = (w.current_index + 1) % w.pages.length) := by
  refine ⟨?_, ?_, fun w hw => (show_next_page_ne_empty w hw).1⟩
  · intro h
    have hne : pages ≠ [] := by
      intro hnil; rw [hnil] at h; simp at h
    have hp : (singleTicks ⟨pages, iv, 0⟩ k).pages = pages := singleTicks_pages _ _
    have hne2 : (singleTicks ⟨pages, iv, 0⟩ k).pages ≠ [] := by rw [hp]; exact hne
    unfold renderedOnTick
    rw [(show_next_page_ne_empty _ hne2).2, hp, singleTicks_index pages iv hne k]
  · intro h
    have hp : (singleTicks ⟨pages, iv, 0⟩ k).pages = [] := by
      rw [singleTicks_pages]
      exact List.length_eq_zero.mp h
    unfold renderedOnTick
    rw [show_next_page_empty _ hp]

/-- Witness for C3: two pages, tick 3 renders page 3 mod 2 = 1. -/
theorem single_rotation_witness :
    0 < ([⟨"A", "a"⟩, ⟨"B", "b"⟩] : List Page).length ∧
    renderedOnTick [⟨"A", "a"⟩, ⟨"B", "b"⟩] 5000 3 =
      some (([⟨"A", "a"⟩, ⟨"B", "b"⟩] : List Page).getD (3 % 2) defaultPage) :=
  ⟨by decide, (single_mode_rotation [⟨"A", "a"⟩, ⟨"B", "b"⟩] 5000 3).1 (by decide)⟩

/-- C10: in single mode with a non-empty page list, current_index stays
strictly below the list length: after the constructor (which performs
the immediate first tick), after any single tick from an in-range
state, and after any number of ticks from construction. -/
theorem single_mode_index_bound (pages : List Page) (iv : Int) (h : 0 < pages.length) :
    (mkSingleWindow pages iv).1.current_index < pages.length ∧
    (∀ w : SingleWindow, w.pages = pages →
      (show_next_page w).1.current_index < pages.length) ∧
    (∀ k, (singleTicks ⟨pages, iv, 0⟩ k).current_index < pages.length) := by
  have hne : pages ≠ [] := by intro hnil; rw [hnil] at h; simp at h
  refine ⟨?_, ?_, ?_⟩
  · show (show_next_page ⟨pages, iv, 0⟩).1.current_index < pages.length
    rw [(show_next_page_ne_empty ⟨pages, iv, 0⟩ hne).1]
    exact Nat.mod_lt _ h
  · intro w hw
    have hwne : w.pages ≠ [] := by rw [hw]; exact hne
    rw [(show_next_page_ne_empty w hwne).1, hw]
    exact Nat.mod_lt _ h
  · intro k
    rw [singleTicks_index pages iv hne k]
    exact Nat.mod_lt _ h

/-- Witness for C10 at a one-page list. -/
theorem single_index_witness :
    0 < ([⟨"A", "a"⟩] : List Page).length ∧
    (mkSingleWindow [⟨"A", "a"⟩] 5000).1.current_index < ([⟨"A", "a"⟩] : List Page).length :=
  ⟨by decide, (single_mode_index_bound [⟨"A", "a"⟩] 5000 (by decide)).1⟩

/-- C5: apply_mode is idempotent — re-invoking it with unchanged config
and topology yields an identical controller; the windows built never
depend on the previous window list (state is not resumed); and in
single mode every rebuild restarts the rotation from the top, the
immediate construction tick rendering page 0. -/
theorem apply_mode_idempotent (c : Controller) (screens : List Monitor) :
    apply_mode (apply_mode c screens) screens = apply_mode c screens ∧
    (∀ ws : List Window, (apply_mode { c with windows := ws } screens).windows =
      (apply_mode c screens).windows) ∧
    (c.mode = Mode.single → c.pages ≠ [] →
      (mkSingleWindow c.pages c.refresh_interval).2 = some (c.pages.getD 0 defaultPage) ∧
      (apply_mode c screens).windows =
        [Window.single (mkSingleWindow c.pages c.refresh_interval).1]) := by
  refine ⟨rfl, fun ws => rfl, fun hm hne => ⟨?_, ?_⟩⟩
  · unfold mkSingleWindow
    rw [(show_next_page_ne_empty ⟨c.pages, c.refresh_interval, 0⟩ hne).2]
  · show new_windows c.mode c.pages c.refresh_interval c.slots_per_screen screens = _
    rw [hm]
    rfl

/-- Witness for C5: a concrete single-mode controller rebuild renders
page 0 on the construction tick. -/
theorem apply_mode_idempotent_witness :
    (mkSingleWindow [⟨"A", "a"⟩] 5000).2 = some (([⟨"A", "a"⟩] : List Page).getD 0 defaultPage) :=
  ((apply_mode_idempotent ⟨Mode.single, [⟨"A", "a"⟩], 5000, 1, []⟩ []).2.2 rfl (by decide)).1

/-- C7: a multi-mode tick touches only the created views — exactly the
assigned cells' pages, in order, each reloaded with the page it was
constructed with — and leaves the window state (hence the slot-to-page
assignment) unchanged; no-signal cells are never ticked. -/
theorem multi_tick_reload_only (pages : List Page) (iv : Int) (geo : Monitor) (slots : Int) :
    (refresh_all_views (mkMultiWindow pages iv geo slots)).1 = mkMultiWindow pages iv geo slots ∧
    (refresh_all_views (mkMultiWindow pages iv geo slots)).2 =
      assignedPages (mkMultiWindow pages iv geo slots).cells :=
  ⟨rfl, (mkMultiWindow_cells_assigned pages iv geo slots).symm⟩

/-- C1: in multi mode apply_mode allocates contiguous blocks in provider
order — window i holds pages[i*slots .. i*slots+slots), all assigned
pages together are exactly the first monitors*slots pages (the rest are
dropped silently) — and in the 3-monitor, slots=2, 5-page scenario the
windows hold [A,B], [C,D], [E] with the third window's cells
[assigned E, no-signal]. -/
theorem multi_contiguous_allocation :
    (∀ (c : Controller) (screens : List Monitor),
      c.mode = Mode.multi → 1 ≤ c.slots_per_screen →
      ((apply_mode c screens).windows.length = screens.length ∧
       (∀ i, i < screens.length →
         windowPages ((apply_mode c screens).windows.getD i defaultWindow) =
           (c.pages.drop (i * c.slots_per_screen.toNat)).take c.slots_per_screen.toNat) ∧
       ((apply_mode c screens).windows.map windowPages).flatten =
         c.pages.take (screens.length * c.slots_per_screen.toNat))) ∧
    (((apply_mode ⟨Mode.multi, pagesABCDE, 5000, 2, []⟩ monitors3).windows.map windowPages) =
        [[⟨"A", "a"⟩, ⟨"B", "b"⟩], [⟨"C", "c"⟩, ⟨"D", "d"⟩], [⟨"E", "e"⟩]] ∧
     windowCells ((apply_mode ⟨Mode.multi, pagesABCDE, 5000, 2, []⟩ monitors3).windows.getD 2
        defaultWindow) = [Cell.assigned ⟨"E", "e"⟩, Cell.noSignal]) := by
  refine ⟨?_, by decide, by decide⟩
  intro c screens hm hs
  have h0 : 0 < c.slots_per_screen := hs
  have hw : (apply_mode c screens).windows =
      buildRem c.refresh_interval c.slots_per_screen c.pages screens := by
    show new_windows c.mode c.pages c.refresh_interval c.slots_per_screen screens = _
    rw [hm]
    show buildMultiFrom c.pages c.refresh_interval c.slots_per_screen 0 screens = _
    rw [buildMultiFrom_eq_buildRem, List.drop_zero]
  refine ⟨?_, ?_, ?_⟩
  · rw [hw]
    exact buildRem_length _ _ h0 screens c.pages
  · intro i hi
    rw [hw, buildRem_getD _ _ h0 screens c.pages i hi]
    rfl
  · rw [hw]
    exact buildRem_assigned _ _ h0 screens c.pages

/-- Witness for C1: the scenario controller satisfies the hypotheses and
gets one window per monitor. -/
theorem multi_contiguous_allocation_witness :
    (1:Int) ≤ 2 ∧
    (apply_mode ⟨Mode.multi, pagesABCDE, 5000, 2, []⟩ monitors3).windows.length =
      monitors3.length :=
  ⟨by decide,
    (multi_contiguous_allocation.1 ⟨Mode.multi, pagesABCDE, 5000, 2, []⟩ monitors3 rfl
      (by decide)).1⟩

/-- C6: in multi mode a window is created for every monitor even after
the page cursor is exhausted; an exhausted monitor's window has every
grid cell no-signal and no views, and with 2 monitors, slots=2 and no
pages both windows show two no-signal cells and own no views (so no
renderer call is ever made for them). -/
theorem multi_exhausted_no_signal :
    (∀ (c : Controller) (screens : List Monitor),
      c.mode = Mode.multi → 1 ≤ c.slots_per_screen →
      ((apply_mode c screens).windows.length = screens.length ∧
       ∀ i, i < screens.length → c.pages.length ≤ i * c.slots_per_screen.toNat →
         windowCells ((apply_mode c screens).windows.getD i defaultWindow) =
           List.replicate ((get_grid_for_slots c.slots_per_screen).1 *
             (get_grid_for_slots c.slots_per_screen).2) Cell.noSignal ∧
         windowViews ((apply_mode c screens).windows.getD i defaultWindow) = [])) ∧
    ((apply_mode ⟨Mode.multi, [], 5000, 2, []⟩ monitors2).windows.map windowCells =
        [[Cell.noSignal, Cell.noSignal], [Cell.noSignal, Cell.noSignal]] ∧
     (apply_mode ⟨Mode.multi, [], 5000, 2, []⟩ monitors2).windows.map windowViews = [[], []]) := by
  refine ⟨?_, by decide, by decide⟩
  intro c screens hm hs
  have h0 : 0 < c.slots_per_screen := hs
  have hw : (apply_mode c screens).windows =
      buildRem c.refresh_interval c.slots_per_screen c.pages screens := by
    show new_windows c.mode c.pages c.refresh_interval c.slots_per_screen screens = _
    rw [hm]
    show buildMultiFrom c.pages c.refresh_interval c.slots_per_screen 0 screens = _
    rw [buildMultiFrom_eq_buildRem, List.drop_zero]
  refine ⟨?_, ?_⟩
  · rw [hw]
    exact buildRem_length _ _ h0 screens c.pages
  · intro i hi hex
    rw [hw, buildRem_getD _ _ h0 screens c.pages i hi]
    have hblock : (c.pages.drop (i * c.slots_per_screen.toNat)).take c.slots_per_screen.toNat =
        ([] : List Page) := by
      rw [List.drop_eq_nil_of_le hex]
      simp
    rw [hblock]
    exact ⟨(mkMultiWindow_nil _ _ _).1, (mkMultiWindow_nil _ _ _).2⟩

/-- Witness for C6: with no pages and two monitors the first window's
cells are all no-signal. -/
theorem multi_exhausted_no_signal_witness :
    (1:Int) ≤ 2 ∧
    windowCells ((apply_mode ⟨Mode.multi, [], 5000, 2, []⟩ monitors2).windows.getD 0
        defaultWindow) =
      List.replicate ((get_grid_for_slots 2).1 * (get_grid_for_slots 2).2) Cell.noSignal :=
  ⟨by decide,
    ((multi_exhausted_no_signal.1 ⟨Mode.multi, [], 5000, 2, []⟩ monitors2 rfl (by decide)).2
      0 (by decide) (by decide)).1⟩

/-- C9: with slots_per_screen > 16 each monitor still consumes a full
slots_per_screen block of pages from the cursor, but its grid has only
16 cells, so only the first 16 consumed pages are displayed; the rest
of the block is neither displayed there nor handed to the next monitor,
whose block starts slots_per_screen pages further on. -/
theorem multi_over_capacity_lost (c : Controller) (screens : List Monitor)
    (hm : c.mode = Mode.multi) (hs : 16 < c.slots_per_screen) :
    (apply_mode c screens).windows.length = screens.length ∧
    ∀ i, i < screens.length →
      windowPages ((apply_mode c screens).windows.getD i defaultWindow) =
        (c.pages.drop (i * c.slots_per_screen.toNat)).take c.slots_per_screen.toNat ∧
      (windowCells ((apply_mode c screens).windows.getD i defaultWindow)).length = 16 ∧
      windowViews ((apply_mode c screens).windows.getD i defaultWindow) =
        (c.pages.drop (i * c.slots_per_screen.toNat)).take 16 := by
  have h0 : 0 < c.slots_per_screen := by omega
  have hw : (apply_mode c screens).windows =
      buildRem c.refresh_interval c.slots_per_screen c.pages screens := by
    show new_windows c.mode c.pages c.refresh_interval c.slots_per_screen screens = _
    rw [hm]
    show buildMultiFrom c.pages c.refresh_interval c.slots_per_screen 0 screens = _
    rw [buildMultiFrom_eq_buildRem, List.drop_zero]
  refine ⟨?_, ?_⟩
  · rw [hw]
    exact buildRem_length _ _ h0 screens c.pages
  · intro i hi
    rw [hw, buildRem_getD _ _ h0 screens c.pages i hi]
    refine ⟨rfl, ?_, ?_⟩
    · show (mkMultiWindow _ _ _ _).cells.length = 16
      rw [mkMultiWindow_cells_length, grid_gt16 _ hs]
      decide
    · show (mkMultiWindow _ _ _ _).views = _
      rw [mkMultiWindow_views, grid_gt16 _ hs, List.take_take]
      have hmin : min ((4, 4).1 * ((4:Nat), (4:Nat)).2) c.slots_per_screen.toNat = 16 := by
        simp
        omega
      rw [hmin]

/-- Witness for C9: slots = 17 on two monitors gives one 16-cell window
per monitor. -/
theorem multi_over_capacity_witness :
    (16:Int) < 17 ∧
    (windowCells ((apply_mode ⟨Mode.multi, [], 5000, 17, []⟩ monitors2).windows.getD 0
        defaultWindow)).length = 16 :=
  ⟨by decide,
    ((multi_over_capacity_lost ⟨Mode.multi, [], 5000, 17, []⟩ monitors2 rfl (by decide)).2
      0 (by decide)).2.1⟩

/-- Counterexample to C4: save_settings stores the collected pages in the
controller before validating the refresh interval, so with a
non-numeric refresh interval the previous pages are not retained. -/
theorem save_settings_pages_not_retained :
    (save_settings ⟨Mode.single, [⟨"Old", "old.example"⟩], 5000, 1, []⟩ [] [] none
        (some 2)).1.pages ≠
      (⟨Mode.single, [⟨"Old", "old.example"⟩], 5000, 1, []⟩ : Controller).pages := by
  decide

/-- C4 amended: on invalid input save_settings warns and returns before
apply_mode, leaving mode, slots_per_screen and the window list
unchanged — but the pages list has already been replaced with the
widget contents, and when the failure is slots < 1 the refresh interval
has already been updated too. -/
theorem save_settings_validation (c : Controller) (screens : List Monitor)
    (newPages : List Page) (sp : Option Int) (r s : Int) :
    (save_settings c screens newPages none sp =
      ({ c with pages := newPages }, SaveOutcome.warnedRefresh)) ∧
    (save_settings c screens newPages (some r) none =
      ({ c with pages := newPages, refresh_interval := r }, SaveOutcome.warnedSlots)) ∧
    (s < 1 →
      save_settings c screens newPages (some r) (some s) =
        ({ c with pages := newPages, refresh_interval := r }, SaveOutcome.warnedSlots)) := by
  refine ⟨rfl, rfl, fun hlt => ?_⟩
  simp only [save_settings]
  rw [if_pos hlt]

/-- Witness for C4's amended claim: a slots value of -3 warns after
having stored the new pages and refresh interval. -/
theorem save_settings_validation_witness :
    ((-3:Int) < 1) ∧
    save_settings ⟨Mode.single, [⟨"Old", "old.example"⟩], 5000, 1, []⟩ [] [] (some 7)
        (some (-3)) =
      ({ (⟨Mode.single, [⟨"Old", "old.example"⟩], 5000, 1, []⟩ : Controller) with
          pages := [], refresh_interval := 7 }, SaveOutcome.warnedSlots) :=
  ⟨by decide,
    (save_settings_validation ⟨Mode.single, [⟨"Old", "old.example"⟩], 5000, 1, []⟩ [] [] none
      7 (-3)).2.2 (by decide)⟩
